import Mathlib

/-!
Shallow embedding of the server-side core of the Inventory Management System
(`src/server.js`): the product store handlers, the alert evaluator, the
revision clock / broadcast event emission, and the notification dispatcher.

JavaScript numbers that matter to the claims (price, quantity, restock delta)
are modelled as `Rat`; `Number.isInteger` becomes `Rat.isInt`. Strings stay
`String`. A field that may be absent from a JSON payload is an `Option`.
Wall-clock readings (`Date.now()`) are explicit `Nat` parameters; generated
UUIDs and ISO timestamps are explicit `String` parameters, since the handlers
use them opaquely.

Handlers return a `HandlerResult` carrying the HTTP status the code sends and
the product collection as it stands after the request (unchanged when no
`writeProducts` call happened), mirroring `sendJson`/`writeProducts` in the
source.
-/

/-- A stored product record (`newItem` shape in `POST /api/products`). -/
structure Product where
  id : String
  productId : String
  productName : String
  category : String
  price : Rat
  quantity : Rat
  manufacturingDate : String
  supplier : String
  updatedAt : String
deriving Repr, DecidableEq

/-- The JSON payload of a create/update request; every field may be absent. -/
structure ProductInput where
  productId : Option String
  productName : Option String
  category : Option String
  price : Option Rat
  quantity : Option Rat
  manufacturingDate : Option String
  supplier : Option String
deriving Repr, DecidableEq

/-- ASCII case folding of one character, as `String.prototype.toLowerCase`
acts on the channel names the code compares against. -/
def charToLower (c : Char) : Char :=
  if 65 ≤ c.toNat ∧ c.toNat ≤ 90 then Char.ofNat (c.toNat + 32) else c

/-- `String.prototype.toLowerCase` over the character list. -/
def strToLower (s : String) : String := ⟨s.data.map charToLower⟩

/-- `String.prototype.trim`: strip leading and trailing whitespace. Defined
over the character list so that concrete instances evaluate. -/
def strTrim (s : String) : String :=
  ⟨((s.data.dropWhile Char.isWhitespace).reverse.dropWhile Char.isWhitespace).reverse⟩

/-- One step of the `required` loop of `validateProductInput`: a field is
rejected when it is `undefined`/`null` (here: `none`) or stringifies to
whitespace. A numeric field that is present never stringifies to "". -/
def checkRequiredStr (name : String) (v : Option String) : Option String :=
  match v with
  | none => some (name ++ " is required")
  | some s => if strTrim s = "" then some (name ++ " is required") else none

/-- The `required` check applied to a numeric field (`price`, `quantity`):
`String(number)` is never empty, so only absence fails. -/
def checkRequiredNum (name : String) (v : Option Rat) : Option String :=
  match v with
  | none => some (name ++ " is required")
  | some _ => none

/-- `validateProductInput` from `src/server.js`: walks the required fields in
source order, then checks `price > 0` and that `quantity` is a non-negative
integer. Returns the first error message, or `none` when valid. -/
def validateProductInput (payload : ProductInput) : Option String :=
  match checkRequiredStr "productId" payload.productId with
  | some e => some e
  | none =>
  match checkRequiredStr "productName" payload.productName with
  | some e => some e
  | none =>
  match checkRequiredStr "category" payload.category with
  | some e => some e
  | none =>
  match checkRequiredNum "price" payload.price with
  | some e => some e
  | none =>
  match checkRequiredNum "quantity" payload.quantity with
  | some e => some e
  | none =>
  match checkRequiredStr "manufacturingDate" payload.manufacturingDate with
  | some e => some e
  | none =>
  match checkRequiredStr "supplier" payload.supplier with
  | some e => some e
  | none =>
  if (payload.price.getD 0) ≤ 0 then some "price must be greater than zero"
  else if ¬ ((payload.quantity.getD 0).isInt ∧ 0 ≤ payload.quantity.getD 0) then
    some "quantity must be a non-negative integer"
  else none

/-- The low-stock projection produced by `computeAlerts` for each item. -/
structure AlertItem where
  id : String
  productId : String
  productName : String
  quantity : Rat
  supplier : String
deriving Repr, DecidableEq

/-- The response shape of `computeAlerts`. -/
structure Alerts where
  lowStockCount : Nat
  outOfStockCount : Nat
  lowStockItems : List AlertItem
deriving Repr, DecidableEq

/-- The `lowStockItems.map((item) => ({...}))` projection of `computeAlerts`. -/
def alertProjection (item : Product) : AlertItem :=
  { id := item.id, productId := item.productId, productName := item.productName
    quantity := item.quantity, supplier := item.supplier }

/-- `computeAlerts` from `src/server.js`: filters `quantity < 5` as low stock,
`quantity === 0` as out of stock, and maps low-stock items to a projection. -/
def computeAlerts (products : List Product) : Alerts :=
  let lowStockItems := products.filter (fun p => p.quantity < 5)
  let outOfStockItems := products.filter (fun p => p.quantity = 0)
  { lowStockCount := lowStockItems.length
    outOfStockCount := outOfStockItems.length
    lowStockItems := lowStockItems.map alertProjection }

/-- The event envelope written to every stream client by `emitStreamEvent`
(the fields the claims mention; `details` are omitted). -/
structure StreamEvent where
  type : String
  revision : Nat
deriving Repr, DecidableEq

/-- `emitStreamEvent` from `src/server.js`, state part: it sets the module
variable `revision = Date.now()` and broadcasts an envelope carrying that
revision. `now` is the `Date.now()` reading at emission; the previous
revision `rev` is overwritten, not consulted. Returns (new revision, event). -/
def emitStreamEvent (now : Nat) (type : String) (rev : Nat) : Nat × StreamEvent :=
  let _ := rev
  (now, { type := type, revision := now })

/-- A sequence of emissions: each element is the `Date.now()` reading and the
event type of one successful mutation, threaded through the revision state.
Returns the final revision and the events in emission order. -/
def emitSeq (rev : Nat) : List (Nat × String) → Nat × List StreamEvent
  | [] => (rev, [])
  | (now, t) :: rest =>
    let (rev', e) := emitStreamEvent now t rev
    let (revFin, es) := emitSeq rev' rest
    (revFin, e :: es)

/-- Outcome the server observes for a product-mutation request: the HTTP
status it answers with, the product collection after the request (equal to
the collection before it whenever the handler returned without calling
`writeProducts`), and the product carried in a success body. -/
structure HandlerResult where
  status : Nat
  products : List Product
  product : Option Product
deriving Repr, DecidableEq

/-- `POST /api/products` from `src/server.js`: validate, reject duplicate
`productId` with 409, otherwise append the new record (fresh `id := newId`,
`updatedAt := now`) and persist. Payload JSON-parse failures (400 before
validation) are outside this model. -/
def createProduct (now newId : String) (payload : ProductInput)
    (products : List Product) : HandlerResult :=
  match validateProductInput payload with
  | some _ => { status := 400, products := products, product := none }
  | none =>
    if products.any (fun p => some p.productId = payload.productId) then
      { status := 409, products := products, product := none }
    else
      let newItem : Product :=
        { id := newId
          productId := payload.productId.getD ""
          productName := payload.productName.getD ""
          category := payload.category.getD ""
          price := payload.price.getD 0
          quantity := payload.quantity.getD 0
          manufacturingDate := payload.manufacturingDate.getD ""
          supplier := payload.supplier.getD ""
          updatedAt := now }
      { status := 201, products := products ++ [newItem], product := some newItem }

/-- `products[index] = { ...products[index], ...fields }` of the PUT handler:
replace the first record whose `id` matches with the spread of the old record
and the coerced payload fields, preserving its `id`, refreshing `updatedAt`.
Returns `none` when no record matches (`findIndex === -1`). -/
def updateInList (now : String) (id : String) (payload : ProductInput) :
    List Product → Option (List Product × Product)
  | [] => none
  | p :: rest =>
    if p.id = id then
      let p' : Product :=
        { p with
          productId := payload.productId.getD ""
          productName := payload.productName.getD ""
          category := payload.category.getD ""
          price := payload.price.getD 0
          quantity := payload.quantity.getD 0
          manufacturingDate := payload.manufacturingDate.getD ""
          supplier := payload.supplier.getD ""
          updatedAt := now }
      some (p' :: rest, p')
    else
      match updateInList now id payload rest with
      | none => none
      | some (rest', q) => some (p :: rest', q)

/-- `PUT /api/products/:id` from `src/server.js`: validate fields, 404 when
`id` is unknown, 409 when the payload's `productId` already belongs to a
record with a different `id`, otherwise replace in place and persist. -/
def updateProduct (now : String) (id : String) (payload : ProductInput)
    (products : List Product) : HandlerResult :=
  match validateProductInput payload with
  | some _ => { status := 400, products := products, product := none }
  | none =>
    if products.all (fun p => ¬ p.id = id) then
      { status := 404, products := products, product := none }
    else if products.any (fun p => ¬ p.id = id ∧ some p.productId = payload.productId) then
      { status := 409, products := products, product := none }
    else
      match updateInList now id payload products with
      | none => { status := 404, products := products, product := none }
      | some (products', p') =>
        { status := 200, products := products', product := some p' }

/-- `PATCH /api/products/:id/restock` body application: bump the first record
whose `id` matches by `d` and refresh its timestamp. `none` when absent. -/
def restockInList (now : String) (id : String) (d : Rat) :
    List Product → Option (List Product × Product)
  | [] => none
  | p :: rest =>
    if p.id = id then
      let p' := { p with quantity := p.quantity + d, updatedAt := now }
      some (p' :: rest, p')
    else
      match restockInList now id d rest with
      | none => none
      | some (rest', q) => some (p :: rest', q)

/-- `PATCH /api/products/:id/restock` from `src/server.js`: the delta is
`Number(payload?.delta ?? 1)`; it must be a positive integer, else 400; 404
when `id` is unknown; otherwise `quantity += delta` and a fresh timestamp. -/
def restockProduct (now : String) (id : String) (delta : Option Rat)
    (products : List Product) : HandlerResult :=
  let d := delta.getD 1
  if ¬ (d.isInt ∧ 0 < d) then
    { status := 400, products := products, product := none }
  else
    match restockInList now id d products with
    | none => { status := 404, products := products, product := none }
    | some (products', p') =>
      { status := 200, products := products', product := some p' }

/-- `DELETE /api/products/:id` from `src/server.js`: filter the record out;
404 when nothing was removed, else persist the filtered collection. -/
def deleteProduct (id : String) (products : List Product) : HandlerResult :=
  let nextProducts := products.filter (fun p => ¬ p.id = id)
  if nextProducts.length = products.length then
    { status := 404, products := products, product := none }
  else
    { status := 204, products := nextProducts, product := none }

/-- A stored notification history entry (`item` shape in
`POST /api/alerts/notify`). -/
structure NotificationRecord where
  id : String
  channel : String
  recipient : String
  subject : String
  message : String
  delivered : Bool
  mode : String
  resultMessage : String
  createdAt : String
deriving Repr, DecidableEq

/-- What a single `fetch` of the webhook would observe, were one made. It is
a parameter of the dispatcher model: the unconfigured path must not depend
on it. -/
inductive FetchOutcome where
  | ok
  | httpError (status : Nat)
  | networkError (msg : String)
deriving Repr, DecidableEq

/-- The `{delivered, mode, message}` object returned by
`dispatchNotification`. -/
structure DispatchResult where
  delivered : Bool
  mode : String
  message : String
deriving Repr, DecidableEq

/-- `dispatchNotification` from `src/server.js`: with no configured hook it
returns log-only without touching the network; with a hook it makes exactly
one attempt whose observed outcome is `outcome`. The `Bool` records whether
a network attempt was made. -/
def dispatchNotification (hook : Option String) (outcome : FetchOutcome) :
    DispatchResult × Bool :=
  match hook with
  | none => ({ delivered := false, mode := "log-only", message := "Webhook not configured" }, false)
  | some _ =>
    match outcome with
    | .ok => ({ delivered := true, mode := "webhook", message := "Delivered to webhook" }, true)
    | .httpError status =>
      ({ delivered := false, mode := "webhook", message := "Webhook failed: " ++ toString status }, true)
    | .networkError msg => ({ delivered := false, mode := "webhook", message := msg }, true)

/-- The per-channel webhook configuration read from the environment at
startup (`EMAIL_WEBHOOK_URL` / `SMS_WEBHOOK_URL`). -/
structure WebhookConfig where
  email : Option String
  sms : Option String
deriving Repr, DecidableEq

/-- `channel === "email" ? EMAIL_WEBHOOK_URL : SMS_WEBHOOK_URL`. -/
def hookFor (cfg : WebhookConfig) (channel : String) : Option String :=
  if channel = "email" then cfg.email else cfg.sms

/-- The JSON payload of `POST /api/alerts/notify`; every field may be
absent. -/
structure NotifyPayload where
  channel : Option String
  recipient : Option String
  subject : Option String
  message : Option String
deriving Repr, DecidableEq

/-- Outcome of the notify handler: HTTP status, the notification history
after the request, the created record, and whether a network attempt
happened. -/
structure NotifyResult where
  status : Nat
  history : List NotificationRecord
  notification : Option NotificationRecord
  attempted : Bool
deriving Repr, DecidableEq

/-- `payload?.subject || "Inventory Alert"`: an absent or empty (falsy)
subject defaults. -/
def subjectOrDefault (subject : Option String) : String :=
  match subject with
  | none => "Inventory Alert"
  | some s => if s = "" then "Inventory Alert" else s

/-- `POST /api/alerts/notify` from `src/server.js`: lower-cases the channel,
trims recipient and message, rejects a channel other than email/sms or an
empty recipient/message with 400, then dispatches, appends exactly one
history record carrying the dispatch outcome, and answers 201. -/
def notifyHandler (cfg : WebhookConfig) (outcome : FetchOutcome)
    (newId now : String) (payload : NotifyPayload)
    (history : List NotificationRecord) : NotifyResult :=
  let channel := strToLower (payload.channel.getD "")
  let recipient := strTrim (payload.recipient.getD "")
  let message := strTrim (payload.message.getD "")
  if ¬ (channel = "email" ∨ channel = "sms") then
    { status := 400, history := history, notification := none, attempted := false }
  else if recipient = "" ∨ message = "" then
    { status := 400, history := history, notification := none, attempted := false }
  else
    let (dispatch, attempted) := dispatchNotification (hookFor cfg channel) outcome
    let item : NotificationRecord :=
      { id := newId
        channel := channel
        recipient := recipient
        subject := subjectOrDefault payload.subject
        message := message
        delivered := dispatch.delivered
        mode := dispatch.mode
        resultMessage := dispatch.message
        createdAt := now }
    { status := 201, history := history ++ [item], notification := some item, attempted := attempted }

/-- A JavaScript number as `Number(url.searchParams.get("limit") || 20)`
produces it: a finite value (every IEEE double is rational), `Infinity`,
`-Infinity`, or `NaN` (any non-numeric string). An absent or empty `limit`
parameter yields `num 20` through the `|| 20` default, so quantifying over
`JSNum` covers every caller-supplied limit value. -/
inductive JSNum where
  | num (q : Rat)
  | posInf
  | negInf
  | nan
deriving Repr, DecidableEq

/-- JS unary minus: `-NaN = NaN`, the infinities flip. -/
def jsNeg : JSNum → JSNum
  | .num q => .num (-q)
  | .posInf => .negInf
  | .negInf => .posInf
  | .nan => .nan

/-- `Math.min`: any `NaN` argument wins, then `-Infinity`, then the smaller
finite value. -/
def jsMin (a b : JSNum) : JSNum :=
  match a, b with
  | .nan, _ => .nan
  | _, .nan => .nan
  | .negInf, _ => .negInf
  | _, .negInf => .negInf
  | .posInf, x => x
  | x, .posInf => x
  | .num x, .num y => .num (min x y)

/-- `Math.max`: any `NaN` argument wins, then `Infinity`, then the larger
finite value. -/
def jsMax (a b : JSNum) : JSNum :=
  match a, b with
  | .nan, _ => .nan
  | _, .nan => .nan
  | .posInf, _ => .posInf
  | _, .posInf => .posInf
  | .negInf, x => x
  | x, .negInf => x
  | .num x, .num y => .num (max x y)

/-- `ToIntegerOrInfinity` truncation of a finite JS number toward zero. -/
def ratTrunc (q : Rat) : Int := q.num.tdiv q.den

/-- `arr.slice(start)` with one JS-number argument. `ToIntegerOrInfinity`
maps `NaN` to 0 (the whole array) and `-Infinity` is clamped to 0; a finite
start is truncated toward zero, counts from the end when negative, and the
slice runs to the end of the array. -/
def jsSlice (start : JSNum) (l : List NotificationRecord) :
    List NotificationRecord :=
  match start with
  | .nan => l
  | .negInf => l
  | .posInf => []
  | .num q =>
    let i := ratTrunc q
    let s : Int :=
      if i < 0 then max ((l.length : Int) + i) 0 else min i (l.length : Int)
    l.drop s.toNat

/-- `GET /api/notifications` from `src/server.js`: the caller's limit is
`Number(url.searchParams.get("limit") || 20)` — here the already-coerced
`JSNum` — and the handler returns
`history.slice(-Math.max(1, Math.min(limit, 100))).reverse()`. -/
def listNotificationsHandler (limit : JSNum) (history : List NotificationRecord) :
    List NotificationRecord :=
  (jsSlice (jsNeg (jsMax (.num 1) (jsMin limit (.num 100)))) history).reverse

/-! ## Concrete sample data used by witnesses and counterexamples -/

/-- A concrete, fully populated product record with a chosen id/quantity. -/
def demoProduct (i : String) (q : Rat) : Product :=
  { id := i, productId := "PID-" ++ i, productName := "Widget " ++ i, category := "tools"
    price := 10, quantity := q, manufacturingDate := "2024-01-01", supplier := "Acme"
    updatedAt := "2024-01-02T00:00:00.000Z" }

/-- A snapshot whose quantities are 0, 2, 4, 5, 10. -/
def demoSnapshot : List Product :=
  [demoProduct "a" 0, demoProduct "b" 2, demoProduct "c" 4,
   demoProduct "d" 5, demoProduct "e" 10]

/-- A concrete notification history entry. -/
def demoNotification (i : String) : NotificationRecord :=
  { id := i, channel := "sms", recipient := "+100", subject := "Inventory Alert"
    message := "low stock", delivered := false, mode := "log-only"
    resultMessage := "Webhook not configured", createdAt := "2024-01-02T00:00:00.000Z" }

/-- A fully populated, valid create/update payload with a fresh business
key. -/
def demoInput : ProductInput :=
  { productId := some "PID-new", productName := some "Widget N"
    category := some "tools", price := some 10, quantity := some 3
    manufacturingDate := some "2024-01-01", supplier := some "Acme" }

/-- `demoInput` with a whitespace-only product name: fails field
validation. -/
def demoBadInput : ProductInput := { demoInput with productName := some " " }

/-- `demoInput` whose business key collides with `demoProduct "a" _`. -/
def demoDupAInput : ProductInput := { demoInput with productId := some "PID-a" }

/-- `demoInput` whose business key collides with `demoProduct "b" _`. -/
def demoDupBInput : ProductInput := { demoInput with productId := some "PID-b" }

/-- A payload that both fails field validation and carries a business key
colliding with `demoProduct "a" _`. -/
def demoDupBadInput : ProductInput :=
  { demoInput with productId := some "PID-a", productName := some " " }

/-! ## Claim-level predicates (phrased from the spec's words, for statements) -/

/-- The spec's "required field is missing or empty" for a string-valued
field: absent, or trimming to the empty string. -/
def strMissingOrEmpty (v : Option String) : Prop :=
  v = none ∨ ∃ s, v = some s ∧ strTrim s = ""

/-- The spec's create/update rejection condition: some required field is
missing or empty, or price ≤ 0, or quantity is not a non-negative
integer. -/
def claimInvalidInput (payload : ProductInput) : Prop :=
  strMissingOrEmpty payload.productId ∨ strMissingOrEmpty payload.productName ∨
  strMissingOrEmpty payload.category ∨ payload.price = none ∨
  payload.quantity = none ∨ strMissingOrEmpty payload.manufacturingDate ∨
  strMissingOrEmpty payload.supplier ∨
  (∃ x, payload.price = some x ∧ x ≤ 0) ∨
  (∃ q, payload.quantity = some q ∧ ¬ (q.isInt ∧ 0 ≤ q))

/-- `n` sequential executions of the restock handler with delta `+1` — the
serialization of `n` concurrent `restock(id, +1)` requests. The handler's
read-modify-write section (`readProducts` … `writeProducts`) is synchronous
JavaScript with no intervening `await`, so the event loop runs each one
atomically and any concurrent schedule is one of these serial orders.
`none` records a failed (non-200) request. -/
def iterRestock (now id : String) : Nat → List Product → Option (List Product)
  | 0, ps => some ps
  | n + 1, ps =>
    let r := restockProduct now id (some 1) ps
    if r.status = 200 then iterRestock now id n r.products else none

/-! ## C8 -/

/-- C8: `computeAlerts` is a pure function of the snapshot counting as
low-stock exactly the records with `quantity < 5` and as out-of-stock exactly
those with `quantity = 0`, returning both counts plus the
(id, productId, productName, quantity, supplier) projection of the low-stock
records; on any snapshot with quantities 0, 2, 4, 5, 10 it yields
`lowStockCount = 3` and `outOfStockCount = 1`. -/
theorem computeAlerts_spec :
    (∀ products : List Product,
      (computeAlerts products).lowStockCount
        = products.countP (fun p => p.quantity < 5) ∧
      (computeAlerts products).outOfStockCount
        = products.countP (fun p => p.quantity = 0) ∧
      (computeAlerts products).lowStockItems
        = (products.filter (fun p => p.quantity < 5)).map alertProjection) ∧
    (∀ products : List Product, products.map Product.quantity = [0, 2, 4, 5, 10] →
      (computeAlerts products).lowStockCount = 3 ∧
      (computeAlerts products).outOfStockCount = 1) := by
  have hcount : ∀ products : List Product,
      (computeAlerts products).lowStockCount
        = products.countP (fun p => p.quantity < 5) ∧
      (computeAlerts products).outOfStockCount
        = products.countP (fun p => p.quantity = 0) := by
    intro products
    constructor <;> simp [computeAlerts, List.countP_eq_length_filter]
  refine ⟨fun products => ⟨(hcount products).1, (hcount products).2, rfl⟩, ?_⟩
  intro products hq
  have hl : products.countP (fun p => p.quantity < 5)
      = List.countP (fun q => decide (q < 5)) (products.map Product.quantity) := by
    rw [List.countP_map]; rfl
  have ho : products.countP (fun p => p.quantity = 0)
      = List.countP (fun q => decide (q = 0)) (products.map Product.quantity) := by
    rw [List.countP_map]; rfl
  rw [(hcount products).1, (hcount products).2, hl, ho, hq]
  exact ⟨by decide, by decide⟩

/-- C8 witness: on the concrete snapshot with quantities 0, 2, 4, 5, 10 the
alert evaluator reports 3 low-stock and 1 out-of-stock records. -/
theorem computeAlerts_spec_witness :
    (computeAlerts demoSnapshot).lowStockCount = 3 ∧
    (computeAlerts demoSnapshot).outOfStockCount = 1 :=
  computeAlerts_spec.2 demoSnapshot (by rfl)

/-! ## C9 -/

/-- C9 counterexample: on a snapshot holding one record with quantity 0,
`computeAlerts` lists that out-of-stock record among the low-stock items, so
it is not the case that every listed low-stock item has nonzero quantity. -/
theorem lowStock_nonzero_counterexample :
    ¬ (∀ item ∈ (computeAlerts [demoProduct "a" 0]).lowStockItems,
        item.quantity ≠ 0) := by decide

/-- C9 amended: a record is counted and listed as low-stock exactly when its
quantity is below 5, with no nonzero requirement — every record with quantity
exactly 0 also appears among the low-stock items (the out-of-stock records are
a subset of the low-stock listing), and every listed low-stock item has
quantity below 5. -/
theorem lowStock_includes_outOfStock (products : List Product) (p : Product)
    (hp : p ∈ products) (h0 : p.quantity = 0) :
    alertProjection p ∈ (computeAlerts products).lowStockItems ∧
    ∀ item ∈ (computeAlerts products).lowStockItems, item.quantity < 5 := by
  constructor
  · refine List.mem_map_of_mem alertProjection ?_
    rw [List.mem_filter]
    exact ⟨hp, by rw [h0]; decide⟩
  · intro item hitem
    simp only [computeAlerts, List.mem_map, List.mem_filter] at hitem
    obtain ⟨q, ⟨_, hq⟩, rfl⟩ := hitem
    simpa [alertProjection] using of_decide_eq_true hq

/-- C9 amended witness: the concrete zero-quantity record appears among the
low-stock items of its snapshot, and all listed items are below 5. -/
theorem lowStock_includes_outOfStock_witness :
    alertProjection (demoProduct "a" 0)
      ∈ (computeAlerts [demoProduct "a" 0]).lowStockItems ∧
    ∀ item ∈ (computeAlerts [demoProduct "a" 0]).lowStockItems,
      item.quantity < 5 :=
  lowStock_includes_outOfStock [demoProduct "a" 0] (demoProduct "a" 0)
    (by simp) (by decide)

/-! ## C1 -/

/-- The revision carried by each emitted event is exactly the `Date.now()`
reading at its emission; the previous revision value is never consulted. -/
theorem emitSeq_revisions (rev : Nat) (times : List (Nat × String)) :
    ((emitSeq rev times).2).map StreamEvent.revision = times.map Prod.fst := by
  induction times generalizing rev with
  | nil => rfl
  | cons hd tl ih =>
    obtain ⟨now, t⟩ := hd
    simp [emitSeq, emitStreamEvent, ih]

/-- C1 counterexample: two successive successful mutations whose
`Date.now()` readings fall in the same millisecond (here both 100, with 100
also the previously issued token) emit events with equal revision tokens, so
the second event's token is not strictly greater than the first's. -/
theorem revision_not_strict_counterexample :
    ((emitSeq 100 [(100, "product_created"), (100, "product_restocked")]).2).map
        StreamEvent.revision = [100, 100] ∧ ¬ (100 < 100) :=
  ⟨by decide, by decide⟩

/-- C1 amended: each broadcast event's revision token equals the `Date.now()`
reading at its emission, so tokens are strictly increasing only as far as the
clock is: whenever every mutation's clock reading is strictly greater than
the previous token (in particular when successive mutations fall in distinct
milliseconds of a monotone clock), each issued token is strictly greater than
the previously issued token and than every earlier one. -/
theorem revision_strictly_increases (rev : Nat) (times : List (Nat × String))
    (hmono : List.Chain (· < ·) rev (times.map Prod.fst)) :
    List.Chain (· < ·) rev
      (((emitSeq rev times).2).map StreamEvent.revision) ∧
    List.Pairwise (· < ·)
      (((emitSeq rev times).2).map StreamEvent.revision) := by
  rw [emitSeq_revisions]
  refine ⟨hmono, ?_⟩
  exact (List.chain_iff_pairwise.mp hmono).sublist (List.sublist_cons_self _ _)

/-- C1 amended witness: starting from token 100, mutations observed at
clock readings 101 and 102 issue the strictly increasing tokens 101, 102. -/
theorem revision_strictly_increases_witness :
    List.Chain (· < ·) 100
      (((emitSeq 100 [(101, "product_created"), (102, "product_deleted")]).2).map
        StreamEvent.revision) ∧
    List.Pairwise (· < ·)
      (((emitSeq 100 [(101, "product_created"), (102, "product_deleted")]).2).map
        StreamEvent.revision) :=
  revision_strictly_increases 100 [(101, "product_created"), (102, "product_deleted")]
    (by simp)

/-! ## C6 -/

/-- Truncation toward zero commutes with negation. -/
theorem ratTrunc_neg (q : Rat) : ratTrunc (-q) = -(ratTrunc q) := by
  simp [ratTrunc, Rat.neg_num, Rat.neg_den, Int.neg_tdiv]

/-- On nonnegative rationals, truncation toward zero is the floor. -/
theorem ratTrunc_eq_floor (q : Rat) (h : 0 ≤ q) : ratTrunc q = Int.floor q := by
  rw [ratTrunc, Rat.floor_def]
  exact Int.tdiv_eq_ediv (Rat.num_nonneg.mpr h) (by positivity)

/-- The truncated clamp `Math.max(1, Math.min(q, 100))` lies in 1..100. -/
theorem ratTrunc_clamp_bounds (q : Rat) :
    1 ≤ ratTrunc (max 1 (min q 100)) ∧ ratTrunc (max 1 (min q 100)) ≤ 100 := by
  have h0 : (0 : Rat) ≤ max 1 (min q 100) :=
    le_trans zero_le_one (le_max_left _ _)
  rw [ratTrunc_eq_floor _ h0]
  constructor
  · exact Int.le_floor.mpr (by exact_mod_cast le_max_left 1 (min q 100))
  · have h100 : max 1 (min q 100) ≤ (100 : Rat) :=
      max_le (by norm_num) (min_le_right _ _)
    calc Int.floor (max 1 (min q 100)) ≤ Int.floor (100 : Rat) :=
          Int.floor_le_floor h100
      _ = 100 := by norm_num

/-- `slice(-k)` for a finite `k` whose truncation is at least 1 keeps the
last `trunc k` elements. -/
theorem jsSlice_neg_num (k : Rat) (hk : 1 ≤ ratTrunc k)
    (l : List NotificationRecord) :
    jsSlice (.num (-k)) l = l.rtake (ratTrunc k).toNat := by
  simp only [jsSlice, List.rtake, ratTrunc_neg]
  rw [if_pos (by omega)]
  congr 1
  omega

/-- C6 counterexample: with a single stored record and caller limit 5
(clamping to 5 itself), the handler returns 1 record, not the clamped
limit 5; and a non-numeric limit — `Number` yields NaN, which defeats the
clamp because `slice(NaN)` is `slice(0)` — returns all 101 records of a
101-record history, exceeding the claimed 100-record bound. -/
theorem listNotifications_count_counterexample :
    ¬ ((listNotificationsHandler (.num 5) [demoNotification "n1"]).length
        = 5) ∧
    ¬ ((listNotificationsHandler .nan
          (List.replicate 101 (demoNotification "n1"))).length ≤ 100) := by
  constructor
  · decide
  · have h : listNotificationsHandler .nan
        (List.replicate 101 (demoNotification "n1"))
        = (List.replicate 101 (demoNotification "n1")).reverse := rfl
    rw [h, List.length_reverse, List.length_replicate]
    omega

/-- C6 amended: for every caller-supplied limit value, coerced by
`Number(limit || 20)` to a finite number, ±Infinity, or NaN: the listing is
always the reverse of (a suffix of) the stored history, so the order is
most-recent-first. For a finite limit `q`, the count is the *minimum* of the
truncated clamp of `q` to 1–100 and the history length — never more than
100, and at least the most recent record when the history is non-empty;
`Infinity` behaves as limit 100 and `-Infinity` as limit 1. But a NaN limit
(any non-numeric string) defeats the clamp — `slice(NaN)` is `slice(0)` —
and returns the *entire* history, which can exceed 100 records. -/
theorem listNotificationsHandler_spec :
    (∀ (q : Rat) (history : List NotificationRecord),
      listNotificationsHandler (.num q) history
        = history.reverse.take (ratTrunc (max 1 (min q 100))).toNat ∧
      (listNotificationsHandler (.num q) history).length
        = min (ratTrunc (max 1 (min q 100))).toNat history.length ∧
      (listNotificationsHandler (.num q) history).length ≤ 100 ∧
      (history ≠ [] →
        (listNotificationsHandler (.num q) history).head? = history.getLast?)) ∧
    (∀ history : List NotificationRecord,
      listNotificationsHandler .nan history = history.reverse) ∧
    (∀ history : List NotificationRecord,
      listNotificationsHandler .posInf history = history.reverse.take 100) ∧
    (∀ history : List NotificationRecord,
      listNotificationsHandler .negInf history = history.reverse.take 1) := by
  refine ⟨?_, fun _ => rfl, ?_, ?_⟩
  · intro q history
    obtain ⟨hk1, hk100⟩ := ratTrunc_clamp_bounds q
    have hmain : listNotificationsHandler (.num q) history
        = history.reverse.take (ratTrunc (max 1 (min q 100))).toNat := by
      have e : jsNeg (jsMax (.num 1) (jsMin (.num q) (.num 100)))
          = .num (-(max 1 (min q 100))) := rfl
      unfold listNotificationsHandler
      rw [e, jsSlice_neg_num _ hk1, List.rtake_eq_reverse_take_reverse,
        List.reverse_reverse]
    have hlen : (listNotificationsHandler (.num q) history).length
        = min (ratTrunc (max 1 (min q 100))).toNat history.length := by
      rw [hmain, List.length_take, List.length_reverse]
    refine ⟨hmain, hlen, ?_, ?_⟩
    · rw [hlen]; omega
    · intro hne
      rw [hmain]
      obtain ⟨m, hm⟩ : ∃ m, (ratTrunc (max 1 (min q 100))).toNat = m + 1 :=
        ⟨(ratTrunc (max 1 (min q 100))).toNat - 1, by omega⟩
      rcases hrev : history.reverse with _ | ⟨a, t⟩
      · exact absurd (by simpa using congrArg List.reverse hrev) hne
      · rw [hm, List.take_succ_cons, List.getLast?_eq_head?_reverse, hrev]
        rfl
  · intro history
    have hk : ratTrunc (max (1 : Rat) 100) = 100 := by decide
    have e : jsNeg (jsMax (.num 1) (jsMin .posInf (.num 100)))
        = .num (-(max 1 100)) := rfl
    unfold listNotificationsHandler
    rw [e, jsSlice_neg_num _ (by rw [hk]; omega), hk,
      List.rtake_eq_reverse_take_reverse, List.reverse_reverse]
    rfl
  · intro history
    have e : jsNeg (jsMax (.num 1) (jsMin .negInf (.num 100))) = .num (-1) := rfl
    unfold listNotificationsHandler
    have hk1 : ratTrunc (1 : Rat) = 1 := by decide
    rw [e, jsSlice_neg_num 1 (by rw [hk1]), hk1,
      List.rtake_eq_reverse_take_reverse, List.reverse_reverse]
    rfl

/-- C6 amended witness: a two-record history with caller limit 1 yields
exactly one record, the most recently appended one; a NaN limit returns the
whole (here two-record) history, most recent first. -/
theorem listNotificationsHandler_spec_witness :
    (listNotificationsHandler (.num 1)
        [demoNotification "n1", demoNotification "n2"]
      = [demoNotification "n1", demoNotification "n2"].reverse.take
          (ratTrunc (max 1 (min 1 100))).toNat ∧
     (listNotificationsHandler (.num 1)
        [demoNotification "n1", demoNotification "n2"]).length
      = min (ratTrunc (max 1 (min 1 100))).toNat
          [demoNotification "n1", demoNotification "n2"].length ∧
     (listNotificationsHandler (.num 1)
        [demoNotification "n1", demoNotification "n2"]).length ≤ 100 ∧
     ([demoNotification "n1", demoNotification "n2"]
        ≠ ([] : List NotificationRecord) →
      (listNotificationsHandler (.num 1)
          [demoNotification "n1", demoNotification "n2"]).head?
        = [demoNotification "n1", demoNotification "n2"].getLast?)) ∧
    listNotificationsHandler .nan [demoNotification "n1", demoNotification "n2"]
      = [demoNotification "n1", demoNotification "n2"].reverse :=
  ⟨listNotificationsHandler_spec.1 1
      [demoNotification "n1", demoNotification "n2"],
   listNotificationsHandler_spec.2.1
      [demoNotification "n1", demoNotification "n2"]⟩

/-! ## C7 -/

/-- C7: for every dispatch request naming a valid channel whose webhook is
unconfigured (and a non-empty recipient and message), the handler succeeds
with 201, makes no network attempt, the dispatch outcome is
`delivered = false` in mode `log-only`, and exactly one NotificationRecord
carrying that outcome is appended to the history — independent of what a
network attempt would have observed. -/
theorem notify_unconfigured_logOnly (cfg : WebhookConfig) (outcome : FetchOutcome)
    (newId now : String) (payload : NotifyPayload)
    (history : List NotificationRecord)
    (hchan : strToLower (payload.channel.getD "") = "email" ∨
             strToLower (payload.channel.getD "") = "sms")
    (hhook : hookFor cfg (strToLower (payload.channel.getD "")) = none)
    (hrec : strTrim (payload.recipient.getD "") ≠ "")
    (hmsg : strTrim (payload.message.getD "") ≠ "") :
    (notifyHandler cfg outcome newId now payload history).status = 201 ∧
    (notifyHandler cfg outcome newId now payload history).attempted = false ∧
    ∃ item : NotificationRecord,
      (notifyHandler cfg outcome newId now payload history).notification
        = some item ∧
      item.delivered = false ∧ item.mode = "log-only" ∧
      (notifyHandler cfg outcome newId now payload history).history
        = history ++ [item] := by
  unfold notifyHandler
  rw [if_neg (not_not_intro hchan), if_neg (by push_neg; exact ⟨hrec, hmsg⟩),
    hhook]
  exact ⟨rfl, rfl, _, rfl, rfl, rfl, rfl⟩

/-- C7 witness: with no SMS webhook configured, a concrete SMS dispatch
request succeeds, makes no attempt, and appends one log-only record. -/
theorem notify_unconfigured_logOnly_witness :
    (notifyHandler ⟨some "https://hooks/email", none⟩ .ok "nid" "t1"
        ⟨some "SMS", some "+15550100", none, some "low stock"⟩ []).status = 201 ∧
    (notifyHandler ⟨some "https://hooks/email", none⟩ .ok "nid" "t1"
        ⟨some "SMS", some "+15550100", none, some "low stock"⟩ []).attempted
      = false ∧
    ∃ item : NotificationRecord,
      (notifyHandler ⟨some "https://hooks/email", none⟩ .ok "nid" "t1"
          ⟨some "SMS", some "+15550100", none, some "low stock"⟩ []).notification
        = some item ∧
      item.delivered = false ∧ item.mode = "log-only" ∧
      (notifyHandler ⟨some "https://hooks/email", none⟩ .ok "nid" "t1"
          ⟨some "SMS", some "+15550100", none, some "low stock"⟩ []).history
        = [] ++ [item] :=
  notify_unconfigured_logOnly ⟨some "https://hooks/email", none⟩ .ok "nid" "t1"
    ⟨some "SMS", some "+15550100", none, some "low stock"⟩ []
    (by right; decide) (by decide) (by decide) (by decide)

/-! ## Validation and list-update lemmas shared by the store claims -/

/-- A required string field passes its check exactly when it is neither
missing nor empty after trimming. -/
theorem checkRequiredStr_eq_none (name : String) (v : Option String) :
    checkRequiredStr name v = none ↔ ¬ strMissingOrEmpty v := by
  cases v with
  | none => simp [checkRequiredStr, strMissingOrEmpty]
  | some s =>
    simp only [checkRequiredStr, strMissingOrEmpty]
    split_ifs with h <;> simp_all

/-- A required numeric field passes its check exactly when it is present. -/
theorem checkRequiredNum_eq_none (name : String) (v : Option Rat) :
    checkRequiredNum name v = none ↔ v ≠ none := by
  cases v <;> simp [checkRequiredNum]

/-- `validateProductInput` accepts exactly when every field check passes and
the price and quantity conditions hold. -/
theorem validate_none_iff_checks (payload : ProductInput) :
    validateProductInput payload = none ↔
      (checkRequiredStr "productId" payload.productId = none ∧
       checkRequiredStr "productName" payload.productName = none ∧
       checkRequiredStr "category" payload.category = none ∧
       checkRequiredNum "price" payload.price = none ∧
       checkRequiredNum "quantity" payload.quantity = none ∧
       checkRequiredStr "manufacturingDate" payload.manufacturingDate = none ∧
       checkRequiredStr "supplier" payload.supplier = none ∧
       ¬ (payload.price.getD 0 ≤ 0) ∧
       ((payload.quantity.getD 0).isInt ∧ 0 ≤ payload.quantity.getD 0)) := by
  unfold validateProductInput
  repeat' split
  all_goals simp_all

/-- `validateProductInput` accepts a payload exactly when the spec's
rejection condition does not hold. -/
theorem validateProductInput_eq_none_iff (payload : ProductInput) :
    validateProductInput payload = none ↔ ¬ claimInvalidInput payload := by
  obtain ⟨pid, pname, cat, price, qty, mdate, supp⟩ := payload
  rw [validate_none_iff_checks]
  simp only [checkRequiredStr_eq_none, checkRequiredNum_eq_none,
    claimInvalidInput, strMissingOrEmpty]
  cases price <;> cases qty <;> simp_all

/-- When some record matches the id, `restockInList` updates the first such
record — the one `find?` returns — and the updated record is the first match
of the new list. -/
theorem restockInList_found (now id : String) (d : Rat)
    (products : List Product) (p : Product)
    (hfind : products.find? (fun q => q.id = id) = some p) :
    ∃ ps', restockInList now id d products
        = some (ps', { p with quantity := p.quantity + d, updatedAt := now }) ∧
      ps'.find? (fun q => q.id = id)
        = some { p with quantity := p.quantity + d, updatedAt := now } := by
  induction products with
  | nil => simp at hfind
  | cons hd tl ih =>
    by_cases h : hd.id = id
    · rw [List.find?_cons_of_pos _ (by simpa using h)] at hfind
      obtain rfl : hd = p := by injection hfind
      refine ⟨{ hd with quantity := hd.quantity + d, updatedAt := now } :: tl,
        ?_, ?_⟩
      · simp [restockInList, h]
      · exact List.find?_cons_of_pos _ (by simpa using h)
    · rw [List.find?_cons_of_neg _ (by simpa using h)] at hfind
      obtain ⟨ps', hps', hfind'⟩ := ih hfind
      refine ⟨hd :: ps', ?_, ?_⟩
      · simp [restockInList, h, hps']
      · rw [List.find?_cons_of_neg _ (by simpa using h)]
        exact hfind'

/-- When no record matches the id, `restockInList` reports `none`. -/
theorem restockInList_eq_none (now id : String) (d : Rat)
    (products : List Product) (habs : ∀ p ∈ products, ¬ p.id = id) :
    restockInList now id d products = none := by
  induction products with
  | nil => rfl
  | cons hd tl ih =>
    have h := habs hd (by simp)
    simp only [restockInList, if_neg h]
    rw [ih (fun p hp => habs p (by simp [hp]))]

/-- When some record matches the id, `updateInList` succeeds. -/
theorem updateInList_isSome (now id : String) (payload : ProductInput)
    (products : List Product) (hex : ∃ p ∈ products, p.id = id) :
    (updateInList now id payload products).isSome := by
  induction products with
  | nil => simp at hex
  | cons hd tl ih =>
    by_cases h : hd.id = id
    · simp [updateInList, h]
    · obtain ⟨p, hp, hpid⟩ := hex
      rcases List.mem_cons.mp hp with rfl | hp'
      · exact absurd hpid h
      · have := ih ⟨p, hp', hpid⟩
        rcases hpr : updateInList now id payload tl with _ | pr
        · rw [hpr] at this; simp at this
        · simp [updateInList, h, hpr]

/-! ## C3 -/

/-- C3: for every create request — with 400 the ValidationError response,
409 the DuplicateKeyError response — if any required field is missing or
empty, or price ≤ 0, or quantity is not a non-negative integer, create
rejects with 400; otherwise, if the business key already exists among live
records, it rejects with 409; otherwise it appends and returns a new record
with the generated identity `newId` and the current timestamp `now`. -/
theorem createProduct_spec (now newId : String) (payload : ProductInput)
    (products : List Product) :
    (claimInvalidInput payload →
      (createProduct now newId payload products).status = 400 ∧
      (createProduct now newId payload products).products = products) ∧
    (¬ claimInvalidInput payload →
      (∃ p ∈ products, some p.productId = payload.productId) →
      (createProduct now newId payload products).status = 409 ∧
      (createProduct now newId payload products).products = products) ∧
    (¬ claimInvalidInput payload →
      (∀ p ∈ products, ¬ some p.productId = payload.productId) →
      ∃ item : Product,
        createProduct now newId payload products
          = { status := 201, products := products ++ [item],
              product := some item } ∧
        item.id = newId ∧ item.updatedAt = now) := by
  refine ⟨?_, ?_, ?_⟩
  · intro hinv
    rcases hv : validateProductInput payload with _ | e
    · exact absurd ((validateProductInput_eq_none_iff payload).mp hv)
        (not_not_intro hinv)
    · unfold createProduct
      rw [hv]
      exact ⟨rfl, rfl⟩
  · intro hval hdup
    have hv : validateProductInput payload = none :=
      (validateProductInput_eq_none_iff payload).mpr hval
    have hany : products.any (fun p => some p.productId = payload.productId)
        = true := by
      rw [List.any_eq_true]
      obtain ⟨p, hp, he⟩ := hdup
      exact ⟨p, hp, decide_eq_true he⟩
    unfold createProduct
    rw [hv, if_pos hany]
    exact ⟨rfl, rfl⟩
  · intro hval hnodup
    have hv : validateProductInput payload = none :=
      (validateProductInput_eq_none_iff payload).mpr hval
    have hany : products.any (fun p => some p.productId = payload.productId)
        = false := by
      rw [List.any_eq_false]
      intro p hp
      simpa using hnodup p hp
    unfold createProduct
    rw [hv, if_neg (by rw [hany]; simp)]
    exact ⟨_, rfl, rfl, rfl⟩

/-- C3 witness: against a store holding `demoProduct "a" 0`, a payload with
a whitespace name is rejected 400 leaving the store unchanged; a valid
payload reusing business key "PID-a" is rejected 409 leaving the store
unchanged; the valid payload with fresh key "PID-new" is created 201 with
identity "id9" and timestamp "t1". -/
theorem createProduct_spec_witness :
    ((createProduct "t1" "id9" demoBadInput [demoProduct "a" 0]).status = 400 ∧
     (createProduct "t1" "id9" demoBadInput [demoProduct "a" 0]).products
       = [demoProduct "a" 0]) ∧
    ((createProduct "t1" "id9" demoDupAInput [demoProduct "a" 0]).status = 409 ∧
     (createProduct "t1" "id9" demoDupAInput [demoProduct "a" 0]).products
       = [demoProduct "a" 0]) ∧
    (∃ item : Product,
      createProduct "t1" "id9" demoInput [demoProduct "a" 0]
        = { status := 201, products := [demoProduct "a" 0] ++ [item],
            product := some item } ∧
      item.id = "id9" ∧ item.updatedAt = "t1") :=
  ⟨(createProduct_spec "t1" "id9" demoBadInput [demoProduct "a" 0]).1
      (Or.inr (Or.inl (Or.inr ⟨" ", rfl, by decide⟩))),
   (createProduct_spec "t1" "id9" demoDupAInput [demoProduct "a" 0]).2.1
      ((validateProductInput_eq_none_iff demoDupAInput).mp (by decide))
      ⟨demoProduct "a" 0, by simp, by decide⟩,
   (createProduct_spec "t1" "id9" demoInput [demoProduct "a" 0]).2.2
      ((validateProductInput_eq_none_iff demoInput).mp (by decide))
      (by decide)⟩

/-! ## C4 -/

/-- C4 counterexample: a create request whose business key "PID-a" collides
with the existing live record `demoProduct "a" 0` but whose product name is
whitespace fails field validation first: the response is 400
(ValidationError), not 409 (DuplicateKeyError), so a colliding request does
not always fail with DuplicateKeyError. -/
theorem duplicateKey_shadowed_counterexample :
    (∃ p ∈ [demoProduct "a" 0],
      some p.productId = demoDupBadInput.productId) ∧
    ¬ ((createProduct "t1" "id9" demoDupBadInput [demoProduct "a" 0]).status
        = 409) := by
  constructor
  · exact ⟨demoProduct "a" 0, by simp, by decide⟩
  · decide

/-- C4 amended: for every create or update request that passes field
validation (and, for update, whose target id exists), a business-key
collision with a different existing live record fails with 409
(DuplicateKeyError) and leaves the product collection unchanged; on update,
when no *different* record carries the new key (a collision only with the
record being updated itself), the request is not an error and succeeds
with 200. -/
theorem duplicateKey_rejected (now newId id : String) (payload : ProductInput)
    (products : List Product) (hval : ¬ claimInvalidInput payload) :
    ((∃ p ∈ products, some p.productId = payload.productId) →
      (createProduct now newId payload products).status = 409 ∧
      (createProduct now newId payload products).products = products) ∧
    ((∃ p ∈ products, p.id = id) →
      ((∃ p ∈ products, ¬ p.id = id ∧ some p.productId = payload.productId) →
        (updateProduct now id payload products).status = 409 ∧
        (updateProduct now id payload products).products = products) ∧
      ((∀ p ∈ products, ¬ p.id = id → ¬ some p.productId = payload.productId) →
        (updateProduct now id payload products).status = 200)) := by
  have hv : validateProductInput payload = none :=
    (validateProductInput_eq_none_iff payload).mpr hval
  refine ⟨(createProduct_spec now newId payload products).2.1 hval, ?_⟩
  intro hex
  have hall : products.all (fun p => ¬ p.id = id) = false := by
    rw [List.all_eq_false]
    obtain ⟨p, hp, hpid⟩ := hex
    exact ⟨p, hp, by simpa using hpid⟩
  constructor
  · intro hdup
    have hany : products.any
        (fun p => ¬ p.id = id ∧ some p.productId = payload.productId) = true := by
      rw [List.any_eq_true]
      obtain ⟨p, hp, hne, he⟩ := hdup
      exact ⟨p, hp, decide_eq_true ⟨hne, he⟩⟩
    unfold updateProduct
    rw [hv, if_neg (by rw [hall]; simp), if_pos hany]
    exact ⟨rfl, rfl⟩
  · intro hnodup
    have hany : products.any
        (fun p => ¬ p.id = id ∧ some p.productId = payload.productId) = false := by
      rw [List.any_eq_false]
      intro p hp
      simp only [decide_eq_true_eq, not_and]
      exact fun hne => hnodup p hp hne
    have hsome := updateInList_isSome now id payload products hex
    rcases hupd : updateInList now id payload products with _ | pr
    · rw [hupd] at hsome; simp at hsome
    · unfold updateProduct
      rw [hv, if_neg (by rw [hall]; simp), if_neg (by rw [hany]; simp), hupd]

/-- C4 amended witness: updating `demoProduct "a" 0` (store also holding
`demoProduct "b" 2`) to business key "PID-b" collides with the different
record and yields 409 leaving the store unchanged; keeping its own key
"PID-a" is not an error and yields 200; creating with key "PID-a" collides
and yields 409 unchanged. -/
theorem duplicateKey_rejected_witness :
    ((createProduct "t1" "id9" demoDupAInput
        [demoProduct "a" 0, demoProduct "b" 2]).status = 409 ∧
     (createProduct "t1" "id9" demoDupAInput
        [demoProduct "a" 0, demoProduct "b" 2]).products
       = [demoProduct "a" 0, demoProduct "b" 2]) ∧
    ((updateProduct "t1" "a" demoDupBInput
        [demoProduct "a" 0, demoProduct "b" 2]).status = 409 ∧
     (updateProduct "t1" "a" demoDupBInput
        [demoProduct "a" 0, demoProduct "b" 2]).products
       = [demoProduct "a" 0, demoProduct "b" 2]) ∧
    (updateProduct "t1" "a" demoDupAInput
        [demoProduct "a" 0, demoProduct "b" 2]).status = 200 :=
  ⟨(duplicateKey_rejected "t1" "id9" "a" demoDupAInput
      [demoProduct "a" 0, demoProduct "b" 2]
      ((validateProductInput_eq_none_iff demoDupAInput).mp (by decide))).1
      ⟨demoProduct "a" 0, by simp, by decide⟩,
   ((duplicateKey_rejected "t1" "id9" "a" demoDupBInput
      [demoProduct "a" 0, demoProduct "b" 2]
      ((validateProductInput_eq_none_iff demoDupBInput).mp (by decide))).2
      ⟨demoProduct "a" 0, by simp, by decide⟩).1
      ⟨demoProduct "b" 2, by simp, by decide, by decide⟩,
   ((duplicateKey_rejected "t1" "id9" "a" demoDupAInput
      [demoProduct "a" 0, demoProduct "b" 2]
      ((validateProductInput_eq_none_iff demoDupAInput).mp (by decide))).2
      ⟨demoProduct "a" 0, by simp, by decide⟩).2
      (by decide)⟩

/-! ## C5 -/

/-- C5: for a store whose first record matching `id` (the one `find?`
returns) is `p`, `restock(id, 5)` answers 200 with that record's quantity
increased by exactly 5 and its timestamp refreshed to `now`; every delta
that is not a positive integer (0, -1, 2.5, …) is rejected 400 — the delta
check precedes the lookup, as the spec orders the checks — leaving the
collection unchanged; with a valid delta, an unknown id is rejected 404,
also leaving the collection unchanged. -/
theorem restockProduct_spec (now id : String) (products : List Product) :
    (∀ p : Product, products.find? (fun q => q.id = id) = some p →
      ∃ ps', restockProduct now id (some 5) products
          = { status := 200, products := ps',
              product :=
                some { p with quantity := p.quantity + 5, updatedAt := now } } ∧
        ps'.find? (fun q => q.id = id)
          = some { p with quantity := p.quantity + 5, updatedAt := now }) ∧
    (∀ delta : Rat, ¬ (delta.isInt ∧ 0 < delta) →
      (restockProduct now id (some delta) products).status = 400 ∧
      (restockProduct now id (some delta) products).products = products) ∧
    (∀ delta : Rat, delta.isInt ∧ 0 < delta →
      (∀ p ∈ products, ¬ p.id = id) →
      (restockProduct now id (some delta) products).status = 404 ∧
      (restockProduct now id (some delta) products).products = products) := by
  refine ⟨?_, ?_, ?_⟩
  · intro p hfind
    obtain ⟨ps', hps', hfind'⟩ := restockInList_found now id 5 products p hfind
    refine ⟨ps', ?_, hfind'⟩
    unfold restockProduct
    rw [if_neg (by decide)]
    simp only [Option.getD_some]
    rw [hps']
  · intro delta hbad
    unfold restockProduct
    rw [if_pos (by simpa using hbad)]
    exact ⟨rfl, rfl⟩
  · intro delta hgood habs
    unfold restockProduct
    rw [if_neg (by simpa using not_not_intro hgood),
      restockInList_eq_none now id _ products habs]
    exact ⟨rfl, rfl⟩

/-- C5 witness: on a store holding `demoProduct "a" 3` (quantity 3),
restocking "a" by 5 yields 200 with quantity 8 and timestamp "t1"; delta 0
and delta -1 yield 400 with the store unchanged; restocking unknown id "zz"
by 5 yields 404 with the store unchanged. -/
theorem restockProduct_spec_witness :
    (∃ ps', restockProduct "t1" "a" (some 5) [demoProduct "a" 3]
        = { status := 200, products := ps',
            product := some { demoProduct "a" 3 with
                              quantity := (demoProduct "a" 3).quantity + 5,
                              updatedAt := "t1" } } ∧
      ps'.find? (fun q => q.id = "a")
        = some { demoProduct "a" 3 with
                 quantity := (demoProduct "a" 3).quantity + 5,
                 updatedAt := "t1" }) ∧
    ((restockProduct "t1" "a" (some 0) [demoProduct "a" 3]).status = 400 ∧
     (restockProduct "t1" "a" (some 0) [demoProduct "a" 3]).products
       = [demoProduct "a" 3]) ∧
    ((restockProduct "t1" "a" (some (-1)) [demoProduct "a" 3]).status = 400 ∧
     (restockProduct "t1" "a" (some (-1)) [demoProduct "a" 3]).products
       = [demoProduct "a" 3]) ∧
    ((restockProduct "t1" "zz" (some 5) [demoProduct "a" 3]).status = 404 ∧
     (restockProduct "t1" "zz" (some 5) [demoProduct "a" 3]).products
       = [demoProduct "a" 3]) :=
  ⟨(restockProduct_spec "t1" "a" [demoProduct "a" 3]).1 (demoProduct "a" 3)
      (by decide),
   (restockProduct_spec "t1" "a" [demoProduct "a" 3]).2.1 0 (by decide),
   (restockProduct_spec "t1" "a" [demoProduct "a" 3]).2.1 (-1) (by decide),
   (restockProduct_spec "t1" "zz" [demoProduct "a" 3]).2.2 5 (by decide)
      (by decide)⟩

/-! ## C2 -/

/-- C2: for a product present in the store with quantity `Q` (the first
record `find?` returns for its id), any serialization of `n` concurrent
`restock(id, +1)` requests — and in the handler the whole
`readProducts`/modify/`writeProducts` section is synchronous, so Node's
event loop executes it atomically and every concurrent schedule is such a
serialization — has all `n` requests succeed and leaves that product's
quantity at exactly `Q + n`: no increment is lost. -/
theorem concurrent_restock_converges (now id : String) (n : Nat)
    (products : List Product) (p : Product)
    (hfind : products.find? (fun q => q.id = id) = some p) :
    ∃ ps', iterRestock now id n products = some ps' ∧
      ∃ p', ps'.find? (fun q => q.id = id) = some p' ∧
        p'.quantity = p.quantity + n := by
  induction n generalizing products p with
  | zero => exact ⟨products, rfl, p, hfind, by simp⟩
  | succ m ih =>
    obtain ⟨ps1, hps1, hfind1⟩ := restockInList_found now id 1 products p hfind
    have hstep : restockProduct now id (some 1) products
        = { status := 200, products := ps1,
            product :=
              some { p with quantity := p.quantity + 1, updatedAt := now } } := by
      unfold restockProduct
      rw [if_neg (by decide)]
      simp only [Option.getD_some]
      rw [hps1]
    obtain ⟨ps', hiter, p', hfind', hq⟩ := ih ps1 _ hfind1
    refine ⟨ps', ?_, p', hfind', ?_⟩
    · show (if (restockProduct now id (some 1) products).status = 200 then _
          else none) = some ps'
      rw [hstep, if_pos rfl]
      exact hiter
    · rw [hq]
      push_cast
      ring

/-- C2 witness: three serialized `restock("a", +1)` requests against
quantity 3 all succeed and converge to quantity 6. -/
theorem concurrent_restock_converges_witness :
    ∃ ps', iterRestock "t1" "a" 3 [demoProduct "a" 3] = some ps' ∧
      ∃ p', ps'.find? (fun q => q.id = "a") = some p' ∧
        p'.quantity = (demoProduct "a" 3).quantity + (3 : Nat) :=
  concurrent_restock_converges "t1" "a" 3 [demoProduct "a" 3]
    (demoProduct "a" 3) (by decide)

/-! ## C10 -/

/-- C10: a restock request whose body omits `delta` (or is `{}`) is not
rejected: `Number(payload?.delta ?? 1)` makes the handler behave exactly as
with an explicit delta of 1, and on an existing product (the first record
`find?` returns for the id) it answers 200 with the quantity incremented by
exactly 1 and the timestamp refreshed. -/
theorem restock_default_delta (now id : String) (products : List Product)
    (p : Product)
    (hfind : products.find? (fun q => q.id = id) = some p) :
    restockProduct now id none products
      = restockProduct now id (some 1) products ∧
    ∃ ps', restockProduct now id none products
        = { status := 200, products := ps',
            product :=
              some { p with quantity := p.quantity + 1, updatedAt := now } } := by
  refine ⟨rfl, ?_⟩
  obtain ⟨ps', hps', _⟩ := restockInList_found now id 1 products p hfind
  refine ⟨ps', ?_⟩
  unfold restockProduct
  rw [if_neg (by decide)]
  simp only [Option.getD_none]
  rw [hps']

/-- C10 witness: restocking existing product "a" (quantity 3) with an
absent delta succeeds with quantity 4, identically to an explicit +1. -/
theorem restock_default_delta_witness :
    restockProduct "t1" "a" none [demoProduct "a" 3]
      = restockProduct "t1" "a" (some 1) [demoProduct "a" 3] ∧
    ∃ ps', restockProduct "t1" "a" none [demoProduct "a" 3]
        = { status := 200, products := ps',
            product :=
              some { demoProduct "a" 3 with
                     quantity := (demoProduct "a" 3).quantity + 1,
                     updatedAt := "t1" } } :=
  restock_default_delta "t1" "a" [demoProduct "a" 3] (demoProduct "a" 3)
    (by decide)
